import Mathlib

/-!
Shallow embedding of `search_client.py` (globus-search-example).

The program is a single straight-line script: it loads or obtains OAuth2
tokens, builds an authorizer, runs one search query and prints the result.
We embed its decision logic faithfully:

  * the token cache file is a `Disk` holding either no file, a corrupt file,
    or a parsed JSON document (the Python `json` stdlib is modelled at the
    value level: the file stores the parsed value, since `json.dump` /
    `json.load` are external collaborators that round-trip JSON values);
  * Python truthiness (`if not tokens:`) and `dict` subscripting
    (`tokens[service]`, raising `KeyError` / `TypeError`) are modelled on a
    JSON value type;
  * the authenticators are external collaborators: their network results
    are passed in as parameters, and the embedding counts how many times a
    flow is invoked and whether the browser launch was attempted;
  * exceptions are `Except PyErr`; `try: ... except: pass` becomes an
    explicit match that discards the error.
-/

set_option autoImplicit false

namespace SearchClientPy

/-- Errors a statement of the script can raise. `ioError` stands for any
OSError from `open` / write, `parseError` for `json.JSONDecodeError`,
`keyError` for a failed dict subscript, `typeError` for subscripting a
non-dict JSON value with a string key. -/
inductive PyErr where
  | ioError
  | parseError
  | keyError
  | typeError
deriving DecidableEq, Repr

/-- JSON values as Python `json.load` produces them (dicts are association
lists in document order; numbers restricted to integers, which covers the
token documents this program handles). -/
inductive Json where
  | null
  | bool (b : Bool)
  | num (n : Int)
  | str (s : String)
  | arr (elems : List Json)
  | obj (fields : List (String × Json))

/-- Python truthiness of a JSON value: `None`, `False`, `0`, empty string,
empty list and empty dict are falsy; everything else is truthy. -/
def Json.truthy : Json → Bool
  | .null => false
  | .bool b => b
  | .num n => n != 0
  | .str s => s != ""
  | .arr elems => !elems.isEmpty
  | .obj fields => !fields.isEmpty

/-- First-match association lookup on the fields of a JSON object,
modelling Python dict lookup (parsed dicts have unique keys). -/
def lookupField : List (String × Json) → String → Option Json
  | [], _ => none
  | (k, v) :: rest, key => if k = key then some v else lookupField rest key

/-- Python subscripting `value[key]` with a string key: succeeds on a dict
containing the key, raises `KeyError` on a dict without it, and raises
`TypeError` on any non-dict value. -/
def Json.getItem (j : Json) (key : String) : Except PyErr Json :=
  match j with
  | .obj fields =>
    match lookupField fields key with
    | some v => .ok v
    | none => .error .keyError
  | _ => .error .typeError

/-- State of the token cache file: `absent` (open raises), `corrupt`
(present but `json.load` raises), or `content j` (parses to `j`). -/
inductive FileState where
  | absent
  | corrupt
  | content (j : Json)

/-- The world the file operations touch: the cache file plus whether a
write to its path can succeed. -/
structure Disk where
  file : FileState
  writable : Bool

/-- A well-formed Token Record as the native flow stores and the factory
reads it: the three fields the script extracts. -/
structure TokenRecord where
  access_token : String
  refresh_token : String
  expires_at_seconds : Int
deriving DecidableEq, Repr

/-- First-match lookup in a resource-server to Token Record mapping. -/
def lookupTokens : List (String × TokenRecord) → String → Option TokenRecord
  | [], _ => none
  | (k, r) :: rest, key => if k = key then some r else lookupTokens rest key

/-- The JSON document a Token Record serializes to. -/
def tokenRecordToJson (r : TokenRecord) : Json :=
  .obj [("access_token", .str r.access_token),
        ("refresh_token", .str r.refresh_token),
        ("expires_at_seconds", .num r.expires_at_seconds)]

/-- The JSON document a full resource-server to Token Record mapping
serializes to. -/
def tokensToJson (m : List (String × TokenRecord)) : Json :=
  .obj (m.map fun p => (p.1, tokenRecordToJson p.2))

/-- Decode one JSON value back to a Token Record; `none` when the value is
not a well-formed record. -/
def jsonToTokenRecord : Json → Option TokenRecord
  | .obj [("access_token", .str a),
          ("refresh_token", .str rt),
          ("expires_at_seconds", .num e)] => some ⟨a, rt, e⟩
  | _ => none

/-- Decode the fields of a JSON object back to a Token Record mapping. -/
def decodeFields : List (String × Json) → Option (List (String × TokenRecord))
  | [] => some []
  | (k, v) :: rest =>
    match jsonToTokenRecord v, decodeFields rest with
    | some r, some rs => some ((k, r) :: rs)
    | _, _ => none

/-- Decode a JSON document back to a resource-server to Token Record
mapping; `none` when the document is not a well-formed mapping. -/
def jsonToTokens : Json → Option (List (String × TokenRecord))
  | .obj fields => decodeFields fields
  | _ => none

/-- `load_tokens_from_file(filepath)`: open and `json.load` the cache
file. A missing file raises an OSError, a corrupt file a parse error. -/
def load_tokens_from_file (d : Disk) : Except PyErr Json :=
  match d.file with
  | .absent => .error .ioError
  | .corrupt => .error .parseError
  | .content j => .ok j

/-- `save_tokens_to_file(filepath, tokens)`: open for write and
`json.dump` the full mapping, overwriting the file; raises when the path
is not writable. No error handling happens inside this function. -/
def save_tokens_to_file (d : Disk) (tokens : Json) : Except PyErr Disk :=
  if d.writable then .ok { d with file := .content tokens } else .error .ioError

/-- Modelled from the spec: the SDK token response handed to the
`on_refresh` callback; per the spec its `by_resource_server` attribute is
the entire updated token mapping (all services), the identity-provider SDK
being an external collaborator not present in this repository. -/
structure TokenResponse where
  by_resource_server : Json

/-- `update_tokens_file_on_refresh(token_response)`: the callback passed
to `RefreshTokenAuthorizer`; writes `token_response.by_resource_server` to
the cache file. Note there is no `try`/`except` here: a write failure
propagates to the caller. -/
def update_tokens_file_on_refresh (d : Disk) (token_response : TokenResponse) :
    Except PyErr Disk :=
  save_tokens_to_file d token_response.by_resource_server

/-- The two environment variables the script reads. `none` models an unset
variable; `some s` a variable set to `s` (possibly empty). -/
structure Env where
  SSH_TTY : Option String
  SSH_CONNECTION : Option String

/-- `is_remote_session()`: returns
`os.environ.get('SSH_TTY', os.environ.get('SSH_CONNECTION'))`. Note the
Python semantics: when `SSH_TTY` is present (even empty) its value is
returned and `SSH_CONNECTION` is never consulted. -/
def is_remote_session (env : Env) : Option String :=
  match env.SSH_TTY with
  | some v => some v
  | none => env.SSH_CONNECTION

/-- Python truthiness of `str | None`: `None` and the empty string are
falsy. -/
def optStrTruthy : Option String → Bool
  | none => false
  | some s => s != ""

/-- Python truthiness of the `tokens` local in the factory, which is
either `None` or a loaded JSON value. -/
def pyNotTokens : Option Json → Bool
  | none => true
  | some j => !j.truthy

/-- Compiled-in constants of the script. -/
def CLIENT_ID : String := "6c1629cf-446c-49e7-af95-323c6412397f"

def CLIENT_SECRET : String := ""

def REDIRECT_URI : String := "https://auth.globus.org/v2/web/auth-code"

def SCOPES : String :=
  "openid email profile urn:globus:auth:scope:search.api.globus.org:search"

def TOKEN_FILE : String := "refresh-tokens.json"

/-- Observable outcome of `do_native_app_authentication`: whether the
browser auto-launch was attempted, and the token mapping returned by the
code-for-tokens exchange (`token_response.by_resource_server`, supplied by
the external identity provider). -/
structure NativeAuthResult where
  opened_browser : Bool
  tokens : Json

/-- `do_native_app_authentication(client_id, redirect_uri,
requested_scopes)`: prints the authorize URL, attempts the browser launch
exactly when `is_remote_session()` is falsy, prompts for the code and
exchanges it. The exchange result `granted` is the external identity
provider response mapping. -/
def do_native_app_authentication (client_id redirect_uri requested_scopes : String)
    (env : Env) (granted : Json) : NativeAuthResult :=
  { opened_browser := !optStrTruthy (is_remote_session env),
    tokens := granted }

/-- The `globus_sdk.RefreshTokenAuthorizer` the native factory builds:
seeded refresh token, access token and expiry (JSON values extracted from
the record), the auth client id, and the persistence callback. -/
structure RefreshTokenAuthorizer where
  client_id : String
  refresh_token : Json
  access_token : Json
  expires_at : Json

/-- The `globus_sdk.AccessTokenAuthorizer` of the confidential path: a
plain access token, no refresh capability. -/
structure AccessTokenAuthorizer where
  access_token : Json

/-- Everything observable about one call of the native factory: the
returned authorizer (or the propagated exception), the final disk, how
many times the Native Authenticator flow ran, and whether a browser launch
was attempted. -/
structure NativeFactoryOut where
  result : Except PyErr RefreshTokenAuthorizer
  disk : Disk
  authCalls : Nat
  browserAttempted : Bool

/-- `get_native_app_authorizer(client_id, service)`: try to load cached
tokens (`except: pass`); on a falsy result run the native flow and
best-effort save (`except: pass`); then subscript the mapping at
`service` and the record at the three token fields, and build a
`RefreshTokenAuthorizer` with `update_tokens_file_on_refresh` as callback.
`granted` is the external exchange response used when the flow runs. -/
def get_native_app_authorizer (client_id service : String) (d : Disk) (env : Env)
    (granted : Json) : NativeFactoryOut :=
  let tokens0 : Option Json :=
    match load_tokens_from_file d with
    | .ok j => some j
    | .error _ => none
  let step : Json × Disk × Nat × Bool :=
    if pyNotTokens tokens0 then
      let res := do_native_app_authentication client_id REDIRECT_URI SCOPES env granted
      let d1 : Disk :=
        match save_tokens_to_file d res.tokens with
        | .ok d2 => d2
        | .error _ => d
      (res.tokens, d1, 1, res.opened_browser)
    else
      (tokens0.getD Json.null, d, 0, false)
  match step with
  | (toks, d1, n, brow) =>
    match toks.getItem service with
    | .error e => ⟨.error e, d1, n, brow⟩
    | .ok svc =>
      match svc.getItem "refresh_token" with
      | .error e => ⟨.error e, d1, n, brow⟩
      | .ok rt =>
        match svc.getItem "access_token" with
        | .error e => ⟨.error e, d1, n, brow⟩
        | .ok atk =>
          match svc.getItem "expires_at_seconds" with
          | .error e => ⟨.error e, d1, n, brow⟩
          | .ok exps => ⟨.ok ⟨client_id, rt, atk, exps⟩, d1, n, brow⟩

/-- `do_client_credentials_app_authentication(client_id, client_secret)`:
one client-credentials exchange against the external identity provider;
returns `token_response.by_resource_server`. -/
def do_client_credentials_app_authentication (client_id client_secret : String)
    (granted : Json) : Json :=
  granted

/-- Observable outcome of one call of the confidential factory. -/
structure ConfFactoryOut where
  result : Except PyErr AccessTokenAuthorizer
  disk : Disk
  authCalls : Nat

/-- `get_confidential_app_authorizer(client_id, client_secret)`: run the
client-credentials flow afresh, subscript the mapping at
`transfer.api.globus.org` and the record at `access_token`, and wrap the
token in an `AccessTokenAuthorizer`. The cache file is never touched. -/
def get_confidential_app_authorizer (client_id client_secret : String) (d : Disk)
    (granted : Json) : ConfFactoryOut :=
  let tokens := do_client_credentials_app_authentication client_id client_secret granted
  match tokens.getItem "transfer.api.globus.org" with
  | .error e => ⟨.error e, d, 1⟩
  | .ok transfer_tokens =>
    match transfer_tokens.getItem "access_token" with
    | .error e => ⟨.error e, d, 1⟩
    | .ok transfer_access_token => ⟨.ok ⟨transfer_access_token⟩, d, 1⟩

/-- The search response of the external search service; `data` is the JSON
body. -/
structure SearchResponse where
  data : Json

/-- One `json.dumps(data, indent=4)` print call as `main` issues it: the
document handed to the serializer and the indent argument. -/
structure PrintEvent where
  data : Json
  indent : Nat

/-- Everything observable about one run of `main`: the authorizer used,
the search operations performed as (index id, query) pairs, and the print
calls issued. -/
structure MainTrace where
  authorizer : RefreshTokenAuthorizer
  searches : List (String × String)
  printed : List PrintEvent

/-- `SearchClient(...).search(index, q)`: one delegated query against the
external search service; returns the service response and the performed
(index, query) operation. -/
def searchCall (index q : String) (resp : SearchResponse) :
    SearchResponse × (String × String) :=
  (resp, (index, q))

/-- `main()`: build a native-path authorizer for `search.api.globus.org`,
run one search with query `*` against the hardcoded index, and print the
response data with `indent=4`. `granted` and `resp` are the external
identity-provider and search-service responses. -/
def main (d : Disk) (env : Env) (granted : Json) (resp : SearchResponse) :
    Except PyErr (MainTrace × Disk) :=
  let out := get_native_app_authorizer CLIENT_ID "search.api.globus.org" d env granted
  match out.result with
  | .error e => .error e
  | .ok authorizer =>
    let r := searchCall "3e117028-2513-4f5b-b53c-90fda3cd328b" "*" resp
    .ok (⟨authorizer, [r.2], [⟨r.1.data, 4⟩]⟩, out.disk)

end SearchClientPy

namespace SearchClientPy

/-! ### Helper lemmas -/

theorem lookupField_map_tokens (m : List (String × TokenRecord)) (s : String) :
    lookupField (m.map fun p => (p.1, tokenRecordToJson p.2)) s =
      (lookupTokens m s).map tokenRecordToJson := by
  induction m with
  | nil => rfl
  | cons p rest ih =>
    obtain ⟨k, r⟩ := p
    by_cases hk : k = s <;> simp [lookupField, lookupTokens, hk, ih]

theorem getItem_tokensToJson (m : List (String × TokenRecord)) (s : String)
    (r : TokenRecord) (hm : lookupTokens m s = some r) :
    (tokensToJson m).getItem s = .ok (tokenRecordToJson r) := by
  simp [tokensToJson, Json.getItem, lookupField_map_tokens, hm]

theorem getItem_record_refresh (r : TokenRecord) :
    (tokenRecordToJson r).getItem "refresh_token" = .ok (.str r.refresh_token) := rfl

theorem getItem_record_access (r : TokenRecord) :
    (tokenRecordToJson r).getItem "access_token" = .ok (.str r.access_token) := rfl

theorem getItem_record_expires (r : TokenRecord) :
    (tokenRecordToJson r).getItem "expires_at_seconds" = .ok (.num r.expires_at_seconds) := rfl

theorem jsonToTokenRecord_tokenRecordToJson (r : TokenRecord) :
    jsonToTokenRecord (tokenRecordToJson r) = some r := rfl

theorem jsonToTokens_tokensToJson (m : List (String × TokenRecord)) :
    jsonToTokens (tokensToJson m) = some m := by
  induction m with
  | nil => rfl
  | cons p rest ih =>
    obtain ⟨k, r⟩ := p
    simp only [tokensToJson, jsonToTokens, List.map] at ih ⊢
    simp [decodeFields, jsonToTokenRecord_tokenRecordToJson, ih]

/-- Full characterization of the native factory on a cache miss (loaded
tokens falsy or load failed): the flow runs once, a best-effort save is
attempted, and the authorizer is built from the fresh record for
`service`. -/
theorem native_factory_miss_char (client_id service : String) (d : Disk) (env : Env)
    (m : List (String × TokenRecord)) (r : TokenRecord)
    (hmiss : pyNotTokens (match load_tokens_from_file d with
      | .ok j => some j
      | .error _ => none) = true)
    (hm : lookupTokens m service = some r) :
    get_native_app_authorizer client_id service d env (tokensToJson m) =
      ⟨.ok ⟨client_id, .str r.refresh_token, .str r.access_token,
            .num r.expires_at_seconds⟩,
       (match save_tokens_to_file d (tokensToJson m) with
        | .ok d2 => d2
        | .error _ => d),
       1, !optStrTruthy (is_remote_session env)⟩ := by
  have hget := getItem_tokensToJson m service r hm
  unfold get_native_app_authorizer
  simp only [do_native_app_authentication, hmiss, if_true, hget,
    getItem_record_refresh, getItem_record_access, getItem_record_expires]

end SearchClientPy

namespace SearchClientPy

/-! ### Claim theorems -/

/-- Claim C1: when the on-refresh callback of the refreshing authorizer is
invoked on a writable disk, the entire token mapping carried by the
refresh response (all resource servers) is rewritten to the cache file in
one overwrite, and every record of the mapping is present in the file
afterwards with unchanged content. -/
theorem on_refresh_persists_entire_mapping (d : Disk) (tr : TokenResponse)
    (hw : d.writable = true) :
    ∃ d', update_tokens_file_on_refresh d tr = .ok d' ∧
      d'.file = .content tr.by_resource_server ∧
      load_tokens_from_file d' = .ok tr.by_resource_server ∧
      ∀ s j, tr.by_resource_server.getItem s = .ok j →
        ∃ t, load_tokens_from_file d' = .ok t ∧ t.getItem s = .ok j := by
  refine ⟨⟨.content tr.by_resource_server, d.writable⟩, ?_, rfl, rfl, ?_⟩
  · simp [update_tokens_file_on_refresh, save_tokens_to_file, hw]
  · intro s j hs
    exact ⟨tr.by_resource_server, rfl, hs⟩

theorem on_refresh_persists_entire_mapping_witness :
    (⟨FileState.absent, true⟩ : Disk).writable = true ∧
    (∃ d', update_tokens_file_on_refresh ⟨FileState.absent, true⟩
        ⟨Json.obj [("search.api.globus.org", tokenRecordToJson ⟨"A", "R", 100⟩)]⟩ = .ok d' ∧
      d'.file = .content (Json.obj [("search.api.globus.org", tokenRecordToJson ⟨"A", "R", 100⟩)]) ∧
      load_tokens_from_file d' = .ok (Json.obj [("search.api.globus.org", tokenRecordToJson ⟨"A", "R", 100⟩)]) ∧
      ∀ s j, (Json.obj [("search.api.globus.org", tokenRecordToJson ⟨"A", "R", 100⟩)]).getItem s = .ok j →
        ∃ t, load_tokens_from_file d' = .ok t ∧ t.getItem s = .ok j) :=
  ⟨rfl, on_refresh_persists_entire_mapping ⟨FileState.absent, true⟩
    ⟨Json.obj [("search.api.globus.org", tokenRecordToJson ⟨"A", "R", 100⟩)]⟩ rfl⟩

/-- Claim C2 counterexample: with SSH_TTY set to the empty string and
SSH_CONNECTION set to the non-empty value "remote", the claim demands that
the browser launch not be attempted, but the native flow attempts it:
`os.environ.get` returns the present-but-empty SSH_TTY value and never
consults SSH_CONNECTION. -/
theorem remote_session_claim_counterexample :
    (⟨some "", some "remote"⟩ : Env).SSH_CONNECTION = some "remote" ∧
    ("remote" : String) ≠ "" ∧
    (do_native_app_authentication CLIENT_ID REDIRECT_URI SCOPES
      ⟨some "", some "remote"⟩ Json.null).opened_browser = true :=
  ⟨rfl, by decide, rfl⟩

/-- Claim C2 (amended): the browser-auto-launch step is skipped exactly
when SSH_TTY is set to a non-empty value, or SSH_TTY is unset and
SSH_CONNECTION is set to a non-empty value; in every other environment
(both unset or empty, and also SSH_TTY set but empty regardless of
SSH_CONNECTION) the launch is attempted. -/
theorem browser_skipped_iff_remote (client_id redirect_uri scopes : String)
    (env : Env) (granted : Json) :
    (do_native_app_authentication client_id redirect_uri scopes env granted).opened_browser
        = false ↔
      (∃ s, env.SSH_TTY = some s ∧ s ≠ "") ∨
      (env.SSH_TTY = none ∧ ∃ s, env.SSH_CONNECTION = some s ∧ s ≠ "") := by
  obtain ⟨tty, conn⟩ := env
  cases tty <;> cases conn <;>
    simp [do_native_app_authentication, is_remote_session, optStrTruthy]

/-- Claim C3 counterexample: a write failure in the save performed by the
on-refresh persistence callback is not tolerated silently; the exception
escapes to the caller (there is no try/except in
`update_tokens_file_on_refresh`). -/
theorem on_refresh_save_failure_escapes :
    update_tokens_file_on_refresh ⟨FileState.content (Json.obj []), false⟩
      ⟨Json.obj []⟩ = .error PyErr.ioError := rfl

/-- Claim C3 (amended): a failure to write the cache file is tolerated
silently in the save step inside the native-path factory, which proceeds
with the in-memory tokens and leaves the disk unchanged; but the save
performed by the on-refresh persistence callback is unguarded, and the
write failure escapes to the caller as an exception. -/
theorem save_failure_factory_silent_callback_escapes (d : Disk) (tr : TokenResponse)
    (env : Env) (service : String) (m : List (String × TokenRecord)) (r : TokenRecord)
    (hw : d.writable = false) (hd : d.file = FileState.absent)
    (hm : lookupTokens m service = some r) :
    update_tokens_file_on_refresh d tr = .error PyErr.ioError ∧
    (get_native_app_authorizer CLIENT_ID service d env (tokensToJson m)).result =
      .ok ⟨CLIENT_ID, .str r.refresh_token, .str r.access_token,
           .num r.expires_at_seconds⟩ ∧
    (get_native_app_authorizer CLIENT_ID service d env (tokensToJson m)).disk = d := by
  have hmiss : pyNotTokens (match load_tokens_from_file d with
      | .ok j => some j
      | .error _ => none) = true := by
    simp [load_tokens_from_file, hd, pyNotTokens]
  have hchar := native_factory_miss_char CLIENT_ID service d env m r hmiss hm
  refine ⟨?_, ?_, ?_⟩
  · simp [update_tokens_file_on_refresh, save_tokens_to_file, hw]
  · rw [hchar]
  · rw [hchar]
    simp [save_tokens_to_file, hw]

theorem save_failure_factory_silent_callback_escapes_witness :
    (⟨FileState.absent, false⟩ : Disk).writable = false ∧
    (⟨FileState.absent, false⟩ : Disk).file = FileState.absent ∧
    lookupTokens [("search.api.globus.org", (⟨"A", "R", 100⟩ : TokenRecord))]
      "search.api.globus.org" = some ⟨"A", "R", 100⟩ ∧
    (update_tokens_file_on_refresh ⟨FileState.absent, false⟩ ⟨Json.obj []⟩ =
        .error PyErr.ioError ∧
      (get_native_app_authorizer CLIENT_ID "search.api.globus.org"
        ⟨FileState.absent, false⟩ ⟨none, none⟩
        (tokensToJson [("search.api.globus.org", ⟨"A", "R", 100⟩)])).result =
        .ok ⟨CLIENT_ID, .str "R", .str "A", .num 100⟩ ∧
      (get_native_app_authorizer CLIENT_ID "search.api.globus.org"
        ⟨FileState.absent, false⟩ ⟨none, none⟩
        (tokensToJson [("search.api.globus.org", ⟨"A", "R", 100⟩)])).disk =
        ⟨FileState.absent, false⟩) :=
  ⟨rfl, rfl, rfl,
    save_failure_factory_silent_callback_escapes ⟨FileState.absent, false⟩
      ⟨Json.obj []⟩ ⟨none, none⟩ "search.api.globus.org"
      [("search.api.globus.org", ⟨"A", "R", 100⟩)] ⟨"A", "R", 100⟩ rfl rfl rfl⟩

/-- Claim C6: saving a well-formed resource-server to Token Record mapping
to the cache file and loading it back returns the same mapping. -/
theorem load_save_roundtrip (m : List (String × TokenRecord)) (d : Disk)
    (hw : d.writable = true) :
    ∃ d', save_tokens_to_file d (tokensToJson m) = .ok d' ∧
      load_tokens_from_file d' = .ok (tokensToJson m) ∧
      jsonToTokens (tokensToJson m) = some m := by
  refine ⟨⟨.content (tokensToJson m), d.writable⟩, ?_, rfl, jsonToTokens_tokensToJson m⟩
  simp [save_tokens_to_file, hw]

theorem load_save_roundtrip_witness :
    (⟨FileState.absent, true⟩ : Disk).writable = true ∧
    (∃ d', save_tokens_to_file ⟨FileState.absent, true⟩
        (tokensToJson [("search.api.globus.org", ⟨"A", "R", 100⟩)]) = .ok d' ∧
      load_tokens_from_file d' =
        .ok (tokensToJson [("search.api.globus.org", ⟨"A", "R", 100⟩)]) ∧
      jsonToTokens (tokensToJson [("search.api.globus.org", ⟨"A", "R", 100⟩)]) =
        some [("search.api.globus.org", ⟨"A", "R", 100⟩)]) :=
  ⟨rfl, load_save_roundtrip [("search.api.globus.org", ⟨"A", "R", 100⟩)]
    ⟨FileState.absent, true⟩ rfl⟩

end SearchClientPy

namespace SearchClientPy

/-- Claim C4: when the cache file is absent or corrupt, the native factory
runs the Native Authenticator flow exactly once, and no error caused by
the missing or corrupt file escapes: given a fresh mapping containing a
record for the service, the factory returns an authorizer built from that
record. -/
theorem native_factory_cache_miss_authenticates_once (service : String) (d : Disk)
    (env : Env) (m : List (String × TokenRecord)) (r : TokenRecord)
    (hd : d.file = FileState.absent ∨ d.file = FileState.corrupt)
    (hm : lookupTokens m service = some r) :
    (get_native_app_authorizer CLIENT_ID service d env (tokensToJson m)).authCalls = 1 ∧
    (get_native_app_authorizer CLIENT_ID service d env (tokensToJson m)).result =
      .ok ⟨CLIENT_ID, .str r.refresh_token, .str r.access_token,
           .num r.expires_at_seconds⟩ := by
  have hmiss : pyNotTokens (match load_tokens_from_file d with
      | .ok j => some j
      | .error _ => none) = true := by
    rcases hd with hd | hd <;> simp [load_tokens_from_file, hd, pyNotTokens]
  have hchar := native_factory_miss_char CLIENT_ID service d env m r hmiss hm
  rw [hchar]
  exact ⟨rfl, rfl⟩

theorem native_factory_cache_miss_authenticates_once_witness :
    ((⟨FileState.corrupt, true⟩ : Disk).file = FileState.absent ∨
      (⟨FileState.corrupt, true⟩ : Disk).file = FileState.corrupt) ∧
    lookupTokens [("search.api.globus.org", (⟨"A", "R", 100⟩ : TokenRecord))]
      "search.api.globus.org" = some ⟨"A", "R", 100⟩ ∧
    ((get_native_app_authorizer CLIENT_ID "search.api.globus.org"
        ⟨FileState.corrupt, true⟩ ⟨none, none⟩
        (tokensToJson [("search.api.globus.org", ⟨"A", "R", 100⟩)])).authCalls = 1 ∧
      (get_native_app_authorizer CLIENT_ID "search.api.globus.org"
        ⟨FileState.corrupt, true⟩ ⟨none, none⟩
        (tokensToJson [("search.api.globus.org", ⟨"A", "R", 100⟩)])).result =
        .ok ⟨CLIENT_ID, .str "R", .str "A", .num 100⟩) :=
  ⟨Or.inr rfl, rfl,
    native_factory_cache_miss_authenticates_once "search.api.globus.org"
      ⟨FileState.corrupt, true⟩ ⟨none, none⟩
      [("search.api.globus.org", ⟨"A", "R", 100⟩)] ⟨"A", "R", 100⟩ (Or.inr rfl) rfl⟩

/-- Claim C5: when the fresh tokens cannot be persisted (the disk is not
writable), the native factory still returns a usable refreshing authorizer
built from the in-memory tokens, and the save failure does not escape (the
disk is simply left unchanged). -/
theorem native_factory_write_failure_still_returns (service : String) (d : Disk)
    (env : Env) (m : List (String × TokenRecord)) (r : TokenRecord)
    (hd : d.file = FileState.absent) (hw : d.writable = false)
    (hm : lookupTokens m service = some r) :
    (get_native_app_authorizer CLIENT_ID service d env (tokensToJson m)).result =
      .ok ⟨CLIENT_ID, .str r.refresh_token, .str r.access_token,
           .num r.expires_at_seconds⟩ ∧
    (get_native_app_authorizer CLIENT_ID service d env (tokensToJson m)).disk = d := by
  have hmiss : pyNotTokens (match load_tokens_from_file d with
      | .ok j => some j
      | .error _ => none) = true := by
    simp [load_tokens_from_file, hd, pyNotTokens]
  have hchar := native_factory_miss_char CLIENT_ID service d env m r hmiss hm
  rw [hchar]
  exact ⟨rfl, by simp [save_tokens_to_file, hw]⟩

theorem native_factory_write_failure_still_returns_witness :
    (⟨FileState.absent, false⟩ : Disk).file = FileState.absent ∧
    (⟨FileState.absent, false⟩ : Disk).writable = false ∧
    lookupTokens [("search.api.globus.org", (⟨"A", "R", 100⟩ : TokenRecord))]
      "search.api.globus.org" = some ⟨"A", "R", 100⟩ ∧
    ((get_native_app_authorizer CLIENT_ID "search.api.globus.org"
        ⟨FileState.absent, false⟩ ⟨none, none⟩
        (tokensToJson [("search.api.globus.org", ⟨"A", "R", 100⟩)])).result =
        .ok ⟨CLIENT_ID, .str "R", .str "A", .num 100⟩ ∧
      (get_native_app_authorizer CLIENT_ID "search.api.globus.org"
        ⟨FileState.absent, false⟩ ⟨none, none⟩
        (tokensToJson [("search.api.globus.org", ⟨"A", "R", 100⟩)])).disk =
        ⟨FileState.absent, false⟩) :=
  ⟨rfl, rfl, rfl,
    native_factory_write_failure_still_returns "search.api.globus.org"
      ⟨FileState.absent, false⟩ ⟨none, none⟩
      [("search.api.globus.org", ⟨"A", "R", 100⟩)] ⟨"A", "R", 100⟩ rfl rfl rfl⟩

/-- Claim C7: when the native factory yields an authorizer, `main` builds
it via the native path only, performs exactly one search — the query `*`
against the hardcoded index — and prints the full response data with
indent 4; its trace contains no other search operation. -/
theorem main_single_query (d : Disk) (env : Env) (granted : Json)
    (resp : SearchResponse) (a : RefreshTokenAuthorizer)
    (h : (get_native_app_authorizer CLIENT_ID "search.api.globus.org" d env
      granted).result = .ok a) :
    main d env granted resp = .ok
      (⟨a, [("3e117028-2513-4f5b-b53c-90fda3cd328b", "*")], [⟨resp.data, 4⟩]⟩,
       (get_native_app_authorizer CLIENT_ID "search.api.globus.org" d env
         granted).disk) := by
  simp only [main, searchCall]
  rw [h]

theorem main_single_query_witness :
    (get_native_app_authorizer CLIENT_ID "search.api.globus.org"
      ⟨FileState.content (tokensToJson [("search.api.globus.org", ⟨"A", "R", 100⟩)]), true⟩
      ⟨none, none⟩ Json.null).result = .ok ⟨CLIENT_ID, .str "R", .str "A", .num 100⟩ ∧
    main ⟨FileState.content (tokensToJson [("search.api.globus.org", ⟨"A", "R", 100⟩)]), true⟩
      ⟨none, none⟩ Json.null ⟨Json.str "hits"⟩ = .ok
      (⟨⟨CLIENT_ID, .str "R", .str "A", .num 100⟩,
        [("3e117028-2513-4f5b-b53c-90fda3cd328b", "*")], [⟨Json.str "hits", 4⟩]⟩,
       (get_native_app_authorizer CLIENT_ID "search.api.globus.org"
         ⟨FileState.content (tokensToJson [("search.api.globus.org", ⟨"A", "R", 100⟩)]), true⟩
         ⟨none, none⟩ Json.null).disk) :=
  ⟨rfl, main_single_query
    ⟨FileState.content (tokensToJson [("search.api.globus.org", ⟨"A", "R", 100⟩)]), true⟩
    ⟨none, none⟩ Json.null ⟨Json.str "hits"⟩ ⟨CLIENT_ID, .str "R", .str "A", .num 100⟩ rfl⟩

/-- Claim C8: every call of the confidential factory runs the confidential
flow exactly once, leaves the cache file untouched, extracts the access
token of the transfer service from the returned mapping, and wraps it in a
plain non-refreshing access-token authorizer. -/
theorem confidential_factory_fresh_no_cache (client_id client_secret : String)
    (d : Disk) (m : List (String × TokenRecord)) (r : TokenRecord)
    (hm : lookupTokens m "transfer.api.globus.org" = some r) :
    (get_confidential_app_authorizer client_id client_secret d
      (tokensToJson m)).authCalls = 1 ∧
    (get_confidential_app_authorizer client_id client_secret d
      (tokensToJson m)).disk = d ∧
    (get_confidential_app_authorizer client_id client_secret d
      (tokensToJson m)).result = .ok ⟨.str r.access_token⟩ := by
  have hget := getItem_tokensToJson m "transfer.api.globus.org" r hm
  unfold get_confidential_app_authorizer
  simp only [do_client_credentials_app_authentication, hget, getItem_record_access]
  exact ⟨trivial, trivial, trivial⟩

theorem confidential_factory_fresh_no_cache_witness :
    lookupTokens [("transfer.api.globus.org", (⟨"A", "R", 100⟩ : TokenRecord))]
      "transfer.api.globus.org" = some ⟨"A", "R", 100⟩ ∧
    ((get_confidential_app_authorizer CLIENT_ID CLIENT_SECRET ⟨FileState.absent, true⟩
        (tokensToJson [("transfer.api.globus.org", ⟨"A", "R", 100⟩)])).authCalls = 1 ∧
      (get_confidential_app_authorizer CLIENT_ID CLIENT_SECRET ⟨FileState.absent, true⟩
        (tokensToJson [("transfer.api.globus.org", ⟨"A", "R", 100⟩)])).disk =
        ⟨FileState.absent, true⟩ ∧
      (get_confidential_app_authorizer CLIENT_ID CLIENT_SECRET ⟨FileState.absent, true⟩
        (tokensToJson [("transfer.api.globus.org", ⟨"A", "R", 100⟩)])).result =
        .ok ⟨.str "A"⟩) :=
  ⟨rfl, confidential_factory_fresh_no_cache CLIENT_ID CLIENT_SECRET
    ⟨FileState.absent, true⟩ [("transfer.api.globus.org", ⟨"A", "R", 100⟩)]
    ⟨"A", "R", 100⟩ rfl⟩

/-- Claim C9: when the cache file loads to a non-empty mapping that has no
record for the requested service, the native factory raises a KeyError and
does not invoke the Native Authenticator. -/
theorem native_factory_missing_service_raises (service : String)
    (fs : List (String × Json)) (w : Bool) (env : Env) (granted : Json)
    (hne : fs ≠ []) (hl : lookupField fs service = none) :
    (get_native_app_authorizer CLIENT_ID service ⟨.content (.obj fs), w⟩ env
      granted).result = .error PyErr.keyError ∧
    (get_native_app_authorizer CLIENT_ID service ⟨.content (.obj fs), w⟩ env
      granted).authCalls = 0 := by
  unfold get_native_app_authorizer
  simp [load_tokens_from_file, pyNotTokens, Json.truthy, List.isEmpty_eq_true, hne,
    Json.getItem, hl]

theorem native_factory_missing_service_raises_witness :
    ([("other.service", tokenRecordToJson ⟨"A", "R", 100⟩)] :
      List (String × Json)) ≠ [] ∧
    lookupField [("other.service", tokenRecordToJson ⟨"A", "R", 100⟩)]
      "search.api.globus.org" = none ∧
    ((get_native_app_authorizer CLIENT_ID "search.api.globus.org"
        ⟨.content (.obj [("other.service", tokenRecordToJson ⟨"A", "R", 100⟩)]), true⟩
        ⟨none, none⟩ Json.null).result = .error PyErr.keyError ∧
      (get_native_app_authorizer CLIENT_ID "search.api.globus.org"
        ⟨.content (.obj [("other.service", tokenRecordToJson ⟨"A", "R", 100⟩)]), true⟩
        ⟨none, none⟩ Json.null).authCalls = 0) :=
  ⟨by simp, rfl,
    native_factory_missing_service_raises "search.api.globus.org"
      [("other.service", tokenRecordToJson ⟨"A", "R", 100⟩)] true ⟨none, none⟩
      Json.null (by simp) rfl⟩

/-- Claim C10: when the cache file parses successfully but to a falsy
value (empty mapping, null, and so on), the native factory treats it
exactly like a cache miss: it runs the Native Authenticator once and
persists the fresh tokens to the file. -/
theorem native_factory_falsy_cache_is_miss (service : String) (j : Json)
    (env : Env) (m : List (String × TokenRecord)) (r : TokenRecord)
    (hj : j.truthy = false) (hm : lookupTokens m service = some r) :
    (get_native_app_authorizer CLIENT_ID service ⟨.content j, true⟩ env
      (tokensToJson m)).authCalls = 1 ∧
    (get_native_app_authorizer CLIENT_ID service ⟨.content j, true⟩ env
      (tokensToJson m)).disk = ⟨.content (tokensToJson m), true⟩ ∧
    (get_native_app_authorizer CLIENT_ID service ⟨.content j, true⟩ env
      (tokensToJson m)).result =
      .ok ⟨CLIENT_ID, .str r.refresh_token, .str r.access_token,
           .num r.expires_at_seconds⟩ := by
  have hmiss : pyNotTokens (match load_tokens_from_file
      (⟨.content j, true⟩ : Disk) with
      | .ok j => some j
      | .error _ => none) = true := by
    simp [load_tokens_from_file, pyNotTokens, hj]
  have hchar := native_factory_miss_char CLIENT_ID service ⟨.content j, true⟩ env m r hmiss hm
  rw [hchar]
  exact ⟨rfl, by simp [save_tokens_to_file], rfl⟩

theorem native_factory_falsy_cache_is_miss_witness :
    (Json.obj []).truthy = false ∧
    lookupTokens [("search.api.globus.org", (⟨"A", "R", 100⟩ : TokenRecord))]
      "search.api.globus.org" = some ⟨"A", "R", 100⟩ ∧
    ((get_native_app_authorizer CLIENT_ID "search.api.globus.org"
        ⟨.content (Json.obj []), true⟩ ⟨none, none⟩
        (tokensToJson [("search.api.globus.org", ⟨"A", "R", 100⟩)])).authCalls = 1 ∧
      (get_native_app_authorizer CLIENT_ID "search.api.globus.org"
        ⟨.content (Json.obj []), true⟩ ⟨none, none⟩
        (tokensToJson [("search.api.globus.org", ⟨"A", "R", 100⟩)])).disk =
        ⟨.content (tokensToJson [("search.api.globus.org", ⟨"A", "R", 100⟩)]), true⟩ ∧
      (get_native_app_authorizer CLIENT_ID "search.api.globus.org"
        ⟨.content (Json.obj []), true⟩ ⟨none, none⟩
        (tokensToJson [("search.api.globus.org", ⟨"A", "R", 100⟩)])).result =
        .ok ⟨CLIENT_ID, .str "R", .str "A", .num 100⟩) :=
  ⟨rfl, rfl,
    native_factory_falsy_cache_is_miss "search.api.globus.org" (Json.obj [])
      ⟨none, none⟩ [("search.api.globus.org", ⟨"A", "R", 100⟩)] ⟨"A", "R", 100⟩
      rfl rfl⟩

end SearchClientPy
